import Mathlib

/-!
Verification of the Saga MCP server (src/mcp/server.py) against its
natural-language specification.

Shallow embedding conventions:
* Python strings are `Str := List Char`; `chars` converts a Lean string
  literal into one.  Python `.upper()`, `.lower()`, `.strip()`, `in`,
  `.startswith`, `.endswith` are `pyUpper`, `pyLower`, `pyStrip`,
  `<:+:` (infix), `<+:` (prefix), `<:+` (suffix) on `List Char`.
* Every real-world effect of the server flows through `run_command`
  (`subprocess.run`).  The environment is a `World` record: `exec` is the
  oracle giving the outcome of spawning a command, and each handler
  returns its result together with the list of commands it spawned, in
  order.  An empty trace means the Process Runner was never invoked.
* Fallible Python code returns `Except`: `HTTPError` models a raised
  `fastapi.HTTPException`, `PyErr` models the exceptions that can escape
  a tool handler into the JSON-RPC dispatcher.
* The ~40 tool handler bodies that the specification declares out of core
  scope (§1) are modelled by the `World.otherTool` oracle; the dispatch
  structure itself (tool-name chain, confirmation gates, unknown-tool
  error) is embedded faithfully from `execute_mcp_tool`.
-/

/-- A Python string, embedded as its list of characters. -/
abbrev Str := List Char

/-- Build a `Str` from a Lean string literal. -/
def chars (s : String) : Str := s.toList

/-- Python `str.lower()` (ASCII case mapping). -/
def pyLower (s : Str) : Str := s.map Char.toLower

/-- Python `str.upper()` (ASCII case mapping). -/
def pyUpper (s : Str) : Str := s.map Char.toUpper

/-- Python `str.strip()`: remove leading and trailing whitespace. -/
def pyStrip (s : Str) : Str :=
  ((s.dropWhile Char.isWhitespace).reverse.dropWhile Char.isWhitespace).reverse

/-- Python `str.split("\n")`. -/
def pySplitNl : Str → List Str
  | [] => [[]]
  | c :: t =>
    match pySplitNl t with
    | [] => if c = '\n' then [[], []] else [[c]]
    | h :: r => if c = '\n' then [] :: h :: r else (c :: h) :: r

/-- Python `str.replace(c, r)` for a single-character pattern. -/
def pyReplaceChar (s : Str) (c : Char) (r : Str) : Str :=
  s.flatMap fun a => if a = c then r else [a]

/-- Python `s[-n:]`: the last `n` characters (whole string when shorter). -/
def takeLastN (n : Nat) (s : Str) : Str := s.drop (s.length - n)

/-- Decimal rendering of a natural number, as used by f-strings. -/
def natStr (n : Nat) : Str := (toString n).toList

/-- Decimal rendering of an integer, as used by f-strings and `str(...)`. -/
def intStr (n : Int) : Str := (toString n).toList

/-- f-string rendering of an `Optional[str]` value (Python renders `None`). -/
def showOptStr : Option Str → Str
  | some s => s
  | none => chars "None"

/-- Truthiness of an `Optional[str]` (Python: `None` and `""` are falsy). -/
def optStrTruthy : Option Str → Bool
  | some s => ¬ s.isEmpty
  | none => false

-- =============================================================================
-- JSON-ish values (loosely-typed argument maps and tool results)
-- =============================================================================

/-- A loosely-typed Python/JSON value, as found in JSON-RPC `params`,
tool argument maps and tool results. -/
inductive JVal where
  | null
  | bool (b : Bool)
  | int (n : Int)
  | str (s : Str)
  | arr (elems : List JVal)
  | obj (fields : List (Str × JVal))

/-- A tool argument map: `dict[str, Any]`. -/
abbrev ArgMap := List (Str × JVal)

/-- Python `dict.get(k)` on an argument map. -/
def pyGet (m : ArgMap) (k : Str) : Option JVal := List.lookup k m

/-- Python truthiness of the result of `dict.get(k)`: missing keys, `None`,
`False`, `0`, `""` and empty containers are falsy. -/
def pyTruthy : Option JVal → Bool
  | none => false
  | some .null => false
  | some (.bool b) => b
  | some (.int n) => decide (n ≠ 0)
  | some (.str s) => ¬ s.isEmpty
  | some (.arr l) => ¬ l.isEmpty
  | some (.obj l) => ¬ l.isEmpty

-- =============================================================================
-- Exceptions
-- =============================================================================

/-- A raised `fastapi.HTTPException(status, detail)`. -/
structure HTTPError where
  status : Nat
  detail : Str
deriving DecidableEq

/-- Exceptions that can escape a tool handler into the JSON-RPC
`except Exception` boundary of the dispatcher. -/
inductive PyErr where
  /-- `ValueError(msg)` — raised by the dispatcher for unknown tools. -/
  | valueError (msg : Str)
  /-- `NameError` — raised when the dispatcher references a class or
  function name that is not defined anywhere in `server.py`. -/
  | nameError (name : Str)
  /-- A propagating `HTTPException` raised inside a handler. -/
  | http (e : HTTPError)
  /-- A pydantic validation failure while building a request model. -/
  | validation (msg : Str)
deriving DecidableEq

/-- Python `str(e)` for each exception kind (`str` of a FastAPI
`HTTPException` renders the status code, a colon and the detail). -/
def pyErrStr : PyErr → Str
  | .valueError m => m
  | .nameError n => chars "name \x27" ++ n ++ chars "\x27 is not defined"
  | .http e => natStr e.status ++ chars ": " ++ e.detail
  | .validation m => m

-- =============================================================================
-- Configuration (server.py lines 32-71): immutable, loaded at startup
-- =============================================================================

/-- `VALID_API_KEYS` — the fixed credential set. -/
def VALID_API_KEYS : List Str :=
  [ chars "785fc6c1647ff650b6b611509cc0a8f47009e6b743340503519d433f111fcf12"
  , chars "a017a1af6fe167bdfcc554debb1c9a39e2ec75b93adde5a06d11e9a1361344f5"
  , chars "646b3c9454024ac1f4a2abad35cf1b8d02678b7c98d84059bde4109956adeeec" ]

/-- `ALLOWED_PATHS` — base paths for file operations. -/
def ALLOWED_PATHS : List Str :=
  [chars "/opt/saga-graph", chars "/app", chars "/var/log", chars "/tmp"]

/-- A compiled `BLOCKED_PATTERNS` entry.  Every pattern in the source is a
literal string, either anchored at the end (`\.env$`, `\.env\.local$`,
`\.pem$`, `\.key$`) or matched anywhere (`credentials`, `secrets`,
`password`, `\.ssh`). -/
inductive PathPat where
  /-- regex `p$` under `re.search`: matches a suffix `p`, or `p` followed
  by a single final newline. -/
  | endAnchor (p : Str)
  /-- regex `p` under `re.search`: matches `p` anywhere. -/
  | anywhere (p : Str)

/-- `re.search(pattern, s)` for the literal patterns used here. -/
def reSearch (pat : PathPat) (s : Str) : Bool :=
  match pat with
  | .anywhere p => decide (p <:+: s)
  | .endAnchor p => decide (p <:+ s) || decide ((p ++ ['\n']) <:+ s)

/-- `BLOCKED_PATTERNS` — sensitive file patterns. -/
def BLOCKED_PATTERNS : List PathPat :=
  [ .endAnchor (chars ".env")
  , .endAnchor (chars ".env.local")
  , .anywhere (chars "credentials")
  , .anywhere (chars "secrets")
  , .endAnchor (chars ".pem")
  , .endAnchor (chars ".key")
  , .anywhere (chars "password")
  , .anywhere (chars ".ssh") ]

/-- `ALLOWED_SERVICES` — Docker services the server may manage.
(A Python `set`; only membership is ever used, except for the
all-services iteration in `search_logs` whose order is irrelevant
to the claims.) -/
def ALLOWED_SERVICES : List Str :=
  [ chars "frontend", chars "apis", chars "worker-main", chars "worker-sources"
  , chars "neo4j", chars "nginx", chars "qdrant", chars "mcp-server" ]

/-- `REPO_PATHS` — repo name to filesystem path. -/
def REPO_PATHS : List (Str × Str) :=
  [ (chars "saga-fe", chars "/opt/saga-graph/saga-fe")
  , (chars "saga-be", chars "/opt/saga-graph/saga-be")
  , (chars "graph-functions", chars "/opt/saga-graph/graph-functions")
  , (chars "victor_deployment", chars "/opt/saga-graph/victor_deployment") ]

-- =============================================================================
-- Security helpers (server.py lines 126-147)
-- =============================================================================

/-- `is_path_allowed(path)`: canonicalize (`os.path.realpath`) and check
the canonical form against the allow-prefixes.  Canonicalization is
modelled as a function `realpath : Str → Option Str`; `none` models an
exception inside the `try`, which the source turns into `False`. -/
def is_path_allowed (realpath : Str → Option Str) (path : Str) : Bool :=
  match realpath path with
  | some real_path => ALLOWED_PATHS.any fun allowed => decide (allowed <+: real_path)
  | none => false

/-- `is_path_blocked(path)`: the blocklist regexes are searched in the
lowercased form of the path string that was passed in — the original
request path, not its canonical resolution. -/
def is_path_blocked (path : Str) : Bool :=
  BLOCKED_PATTERNS.any fun pattern => reSearch pattern (pyLower path)

/-- `validate_path(path)`: allowlist check first (fail closed on
resolution errors), then blocklist check, then return the real path.
The final `none` branch is unreachable: `is_path_allowed` returning
`true` implies canonicalization succeeded. -/
def validate_path (realpath : Str → Option Str) (path : Str) : Except HTTPError Str :=
  if ¬ is_path_allowed realpath path then
    .error ⟨403, chars "Access denied: " ++ path ++ chars " is outside allowed directories"⟩
  else if is_path_blocked path then
    .error ⟨403, chars "Access denied: " ++ path ++ chars " matches blocked pattern"⟩
  else
    match realpath path with
    | some real_path => .ok real_path
    | none => .error ⟨403, chars "Access denied: " ++ path ++ chars " is outside allowed directories"⟩

/-- Whether `validate_path` accepts (returns rather than raises). -/
def acceptsPath (realpath : Str → Option Str) (path : Str) : Bool :=
  match validate_path realpath path with
  | .ok _ => true
  | .error _ => false

/-- Modelled from the spec (§4.2, §8), for comparison with the code:
`pathAllowed(P)` is true iff the canonical resolution of `P` starts with
one of the configured allow-prefixes AND the canonical form does not
match any blocklist pattern; any canonicalization failure rejects. -/
def pathAllowed_spec (realpath : Str → Option Str) (path : Str) : Bool :=
  match realpath path with
  | some real_path =>
      (ALLOWED_PATHS.any fun allowed => decide (allowed <+: real_path))
        && ¬ is_path_blocked real_path
  | none => false

-- =============================================================================
-- Process Runner (server.py lines 150-179)
-- =============================================================================

/-- A command handed to `subprocess.run`: either a shell-interpreted
string (`shell=True`) or a literal argument vector. -/
inductive Cmd where
  | sh (command : Str)
  | argv (args : List Str)
deriving DecidableEq

/-- What the environment does with a spawned command: normal completion,
`subprocess.TimeoutExpired`, or a spawn failure (any other exception). -/
inductive ProcOutcome where
  | completed (stdout stderr : Str) (returncode : Int)
  | timedOut
  | spawnError (message : Str)

/-- The normalized result dict produced by `run_command`. -/
structure ExecResult where
  stdout : Str
  stderr : Str
  returncode : Int
  success : Bool
deriving DecidableEq

-- =============================================================================
-- The environment
-- =============================================================================

/-- The external world, as seen by the server.  All fields are oracles for
behavior outside the core: `exec` decides what each spawned process does;
`jsonParse`/`jsonDumpsDict` model the Python `json` module; `otherTool`
gives the outcome (result or raised exception, plus spawn trace) of the
tool-handler bodies that the spec places out of core scope (§1);
`brokenCall` gives the exception raised on dispatcher paths that always
raise before spawning anything (a pydantic validation failure while
building the request model, or the `NameError` for an undefined handler
name), whose precise exception identity depends on the arguments. -/
structure World where
  exec : Cmd → ProcOutcome
  jsonParse : Str → Option JVal
  jsonDumpsDict : List (Str × JVal) → Str
  otherTool : Str → ArgMap → Except PyErr JVal × List Cmd
  brokenCall : Str → ArgMap → PyErr

/-- `run_command(cmd, timeout)`: run the command, normalize the outcome,
never raise.  The second component is the spawn trace (always exactly
this one command).  The timeout bounds the real-world wait; in the model
the `exec` oracle already accounts for it via the `timedOut` outcome. -/
def run_command (w : World) (cmd : Cmd) (timeout : Nat := 60) : ExecResult × List Cmd :=
  (match w.exec cmd with
   | .completed out err code =>
       { stdout := out, stderr := err, returncode := code, success := code == 0 }
   | .timedOut =>
       { stdout := [], stderr := chars "Command timed out", returncode := -1, success := false }
   | .spawnError msg =>
       { stdout := [], stderr := msg, returncode := -1, success := false }
  , [cmd])

-- =============================================================================
-- LOG TOOLS (server.py lines 1283-1323)
-- =============================================================================

/-- `ReadLogRequest` (pydantic model). -/
structure ReadLogRequest where
  service : Str
  lines : Int := 100
  since : Option Str := none

/-- The result dict of `read_log`. -/
structure ReadLogResult where
  service : Str
  lines_requested : Int
  logs : Str
  stderr : Str
  success : Bool

/-- `read_log`: reject unknown services with a 400, otherwise run
`docker logs`.  (The 400 detail in the source also interpolates the
repr of the allowed set; that tail is omitted here, no claim reads it.) -/
def read_log (w : World) (req : ReadLogRequest) : Except HTTPError ReadLogResult × List Cmd :=
  if ¬ ALLOWED_SERVICES.contains req.service then
    (.error ⟨400, chars "Unknown service: " ++ req.service⟩, [])
  else
    let cmd := Cmd.argv ([chars "docker", chars "logs", chars "--tail", intStr req.lines]
      ++ (if optStrTruthy req.since then [chars "--since", showOptStr req.since] else [])
      ++ [req.service])
    let r := (run_command w cmd 30).1
    (.ok { service := req.service, lines_requested := req.lines,
           logs := r.stdout, stderr := r.stderr, success := r.success }, [cmd])

/-- `SearchLogsRequest` (pydantic model). -/
structure SearchLogsRequest where
  pattern : Str
  service : Option Str := none
  since : Option Str := some (chars "1h")
  lines : Int := 500

/-- The result dict of `search_logs`. -/
structure SearchLogsResult where
  pattern : Str
  since : Option Str
  «matches» : List (Str × List Str)
  total_matches : Nat

/-- The shell pipeline `search_logs` builds per service. -/
def search_logs_cmd (since : Option Str) (pattern : Str) (lines : Int) (service : Str) : Cmd :=
  .sh (chars "docker logs --since " ++ showOptStr since ++ chars " " ++ service
    ++ chars " 2>&1 | grep -E \x27" ++ pattern ++ chars "\x27 | tail -n " ++ intStr lines)

/-- One iteration of the `search_logs` loop: skip services outside the
allowlist, otherwise run the pipeline and record non-empty output. -/
def search_logs_step (w : World) (req : SearchLogsRequest)
    (acc : List (Str × List Str) × List Cmd) (service : Str) :
    List (Str × List Str) × List Cmd :=
  if ¬ ALLOWED_SERVICES.contains service then acc
  else
    let c := search_logs_cmd req.since req.pattern req.lines service
    let r := (run_command w c 30).1
    let out := pyStrip r.stdout
    (if ¬ out.isEmpty then acc.1 ++ [(service, pySplitNl out)] else acc.1, acc.2 ++ [c])

/-- `search_logs`: search one service (when a truthy service filter is
given) or all allowed services; unknown services are skipped by the
loop; the handler never raises. -/
def search_logs (w : World) (req : SearchLogsRequest) :
    Except HTTPError SearchLogsResult × List Cmd :=
  let services := match req.service with
    | some s => if s.isEmpty then ALLOWED_SERVICES else [s]
    | none => ALLOWED_SERVICES
  let folded := services.foldl (search_logs_step w req) ([], [])
  (.ok { pattern := req.pattern, since := req.since, «matches» := folded.1,
         total_matches := (folded.1.map fun kv => kv.2.length).sum }, folded.2)

-- =============================================================================
-- DEPLOYMENT TOOLS (server.py lines 1467-1544)
-- =============================================================================

/-- `DeployServiceRequest` (pydantic model). -/
structure DeployServiceRequest where
  service : Str
  pull : Bool := true
  no_cache : Bool := true

/-- One entry of the per-step report list built by `deploy_service`
(the `git_pull` entry also carries a `repo` key). -/
structure DeployStep where
  step : Str
  success : Bool
  output : Str
  repo : Option Str := none

/-- The result dict of `deploy_service`. -/
structure DeployResult where
  service : Str
  steps : List DeployStep
  overall_success : Bool

/-- `service_to_repo` — the map local to `deploy_service`. -/
def service_to_repo : List (Str × Str) :=
  [ (chars "frontend", chars "saga-fe")
  , (chars "apis", chars "saga-be")
  , (chars "worker-main", chars "graph-functions")
  , (chars "worker-sources", chars "graph-functions") ]

/-- The optional `git pull` phase of `deploy_service`: runs only when the
request asks for a pull and the service maps to a known repo path. -/
def deploy_pull_part (w : World) (req : DeployServiceRequest) : List DeployStep × List Cmd :=
  if req.pull then
    match List.lookup req.service service_to_repo with
    | some repo =>
      match List.lookup repo REPO_PATHS with
      | some repo_path =>
        let c := Cmd.sh (chars "cd " ++ repo_path ++ chars " && git pull")
        let r := (run_command w c 60).1
        ([{ step := chars "git_pull", repo := some repo, success := r.success,
            output := r.stdout ++ r.stderr }], [c])
      | none => ([], [])
    | none => ([], [])
  else ([], [])

/-- The `docker compose build` command `deploy_service` runs (the
`cache_flag` interpolation is inlined; an empty flag leaves the double
space of the source f-string). -/
def deploy_build_cmd (req : DeployServiceRequest) : Cmd :=
  .sh (chars "cd /opt/saga-graph/victor_deployment && docker compose build "
    ++ (if req.no_cache then chars "--no-cache" else []) ++ chars " " ++ req.service)

/-- The `docker compose up -d` command `deploy_service` runs. -/
def deploy_up_cmd (req : DeployServiceRequest) : Cmd :=
  .sh (chars "cd /opt/saga-graph/victor_deployment && docker compose up -d " ++ req.service)

/-- `deploy_service`: git pull (when requested and mapped), then
`docker compose build`, then `docker compose up -d` only if the build
succeeded; each executed step is reported with its success flag. -/
def deploy_service (w : World) (req : DeployServiceRequest) :
    Except HTTPError DeployResult × List Cmd :=
  if ¬ ALLOWED_SERVICES.contains req.service then
    (.error ⟨400, chars "Unknown service: " ++ req.service⟩, [])
  else
    let pullPart := deploy_pull_part w req
    let rb := (run_command w (deploy_build_cmd req) 600).1
    let buildStep : DeployStep :=
      { step := chars "docker_build", success := rb.success,
        output := takeLastN 2000 rb.stdout ++ takeLastN 2000 rb.stderr }
    let upPart : List DeployStep × List Cmd :=
      if rb.success then
        let ru := (run_command w (deploy_up_cmd req) 120).1
        ([{ step := chars "docker_up", success := ru.success,
            output := ru.stdout ++ ru.stderr }], [deploy_up_cmd req])
      else ([], [])
    let steps := pullPart.1 ++ [buildStep] ++ upPart.1
    (.ok { service := req.service, steps := steps,
           overall_success := steps.all fun s => s.success },
     pullPart.2 ++ [deploy_build_cmd req] ++ upPart.2)

/-- `RestartServiceRequest` (pydantic model) — note: no `confirm` field
exists on this REST request model. -/
structure RestartServiceRequest where
  service : Str

/-- The result dict of the REST `restart_service` endpoint. -/
structure RestartResult where
  service : Str
  success : Bool
  output : Str

/-- REST `POST /mcp/tools/restart_service`: validates the service name
and immediately runs `docker compose restart` — there is no confirmation
check on this surface. -/
def restart_service (w : World) (req : RestartServiceRequest) :
    Except HTTPError RestartResult × List Cmd :=
  if ¬ ALLOWED_SERVICES.contains req.service then
    (.error ⟨400, chars "Unknown service: " ++ req.service⟩, [])
  else
    let cmd := Cmd.sh (chars "cd /opt/saga-graph/victor_deployment && docker compose restart "
      ++ req.service)
    let r := (run_command w cmd 120).1
    (.ok { service := req.service, success := r.success, output := r.stdout ++ r.stderr }, [cmd])

-- =============================================================================
-- DATABASE TOOLS (server.py lines 1623-1651)
-- =============================================================================

/-- `CypherRequest` (pydantic model). -/
structure CypherRequest where
  query : Str
  params : List (Str × JVal) := []

/-- The mutating-keyword blocklist local to `query_neo4j`. -/
def write_keywords : List Str :=
  [chars "CREATE", chars "MERGE", chars "DELETE", chars "SET", chars "REMOVE", chars "DROP"]

/-- The `docker exec … python -c` command `query_neo4j` builds around the
escaped query text and the JSON dump of the parameters. -/
def neo4j_cmd (escaped_query paramsJson : Str) : Cmd :=
  .sh (chars "docker exec -w /app/graph-functions apis python -c \"\nfrom src.graph.neo4j_client import run_cypher\nimport json\nresults = run_cypher(\x27"
    ++ escaped_query ++ chars "\x27, " ++ paramsJson
    ++ chars ")\nprint(json.dumps(results, default=str))\n\"")

/-- `query_neo4j`: uppercase and strip the query, reject with a 400 (and
no spawn) when any mutating keyword occurs as a substring, otherwise
escape quotes and execute via `docker exec`. -/
def query_neo4j (w : World) (req : CypherRequest) : Except HTTPError JVal × List Cmd :=
  let query_upper := pyStrip (pyUpper req.query)
  if write_keywords.any (fun kw => decide (kw <:+: query_upper)) then
    (.error ⟨400, chars "Write queries not allowed via MCP. Use read-only queries."⟩, [])
  else
    let escaped_query := pyReplaceChar (pyReplaceChar req.query '"' (chars "\\\"")) '\x27' (chars "\\\x27")
    let cmd := neo4j_cmd escaped_query (w.jsonDumpsDict req.params)
    let r := (run_command w cmd 30).1
    (.ok (if r.success then
            match w.jsonParse r.stdout with
            | some data => JVal.obj [(chars "query", .str req.query), (chars "results", data),
                                     (chars "success", .bool true)]
            | none => JVal.obj [(chars "query", .str req.query), (chars "raw_output", .str r.stdout),
                                (chars "success", .bool true)]
          else JVal.obj [(chars "query", .str req.query), (chars "error", .str r.stderr),
                         (chars "success", .bool false)]), [cmd])

-- =============================================================================
-- ACTION TOOLS (server.py lines 2243-2265)
-- =============================================================================

/-- `HideArticleRequest` (pydantic model) — note: no `confirm` field
exists on this REST request model either. -/
structure HideArticleRequest where
  article_id : Str
  reason : Str

/-- The `docker exec … python -c` script `hide_article` builds by
splicing the article id and reason into the script text. -/
def hide_article_cmd (article_id reason : Str) : Cmd :=
  .sh (chars "docker exec -w /app/graph-functions apis python -c \"\nfrom src.graph.ops.article import set_article_hidden\nfrom src.observability.stats_client import track\nimport json\n\ntry:\n    set_article_hidden(\x27"
    ++ article_id
    ++ chars "\x27)\n    track(\x27article_hidden_via_mcp\x27, \x27" ++ article_id ++ chars ": "
    ++ reason
    ++ chars "\x27)\n    print(json.dumps(\x7b\x27success\x27: True, \x27article_id\x27: \x27"
    ++ article_id ++ chars "\x27, \x27reason\x27: \x27" ++ reason
    ++ chars "\x27\x7d))\nexcept Exception as e:\n    print(json.dumps(\x7b\x27success\x27: False, \x27error\x27: str(e)\x7d))\n\"")

/-- REST `POST /mcp/tools/hide_article`: runs the soft-delete script
unconditionally — there is no confirmation check on this surface. -/
def hide_article (w : World) (req : HideArticleRequest) : Except HTTPError JVal × List Cmd :=
  let cmd := hide_article_cmd req.article_id req.reason
  let r := (run_command w cmd 30).1
  (.ok (if r.success then
          match w.jsonParse r.stdout with
          | some v => v
          | none => JVal.obj [(chars "raw_output", .str r.stdout)]
        else JVal.obj [(chars "error", .str r.stderr), (chars "success", .bool false)]), [cmd])

-- =============================================================================
-- MCP PROTOCOL (server.py lines 335-944): registry, dispatcher, handler
-- =============================================================================

/-- One entry of the static tool catalog: name, description, and the
`required` list of its declared input schema. -/
structure ToolDef where
  name : Str
  description : Str
  required : List Str

/-- `MCP_TOOLS` — the static tool catalog (server.py lines 335-845),
transcribed entry by entry in source order.  The `inputSchema` of each entry
is declarative only and never enforced by the registry (spec §4.4); it is
modelled by its `required` list, eliding the per-property descriptions. -/
def MCP_TOOLS : List ToolDef :=
  [⟨chars "graph_health",
     chars "Get comprehensive graph health diagnostics - topic/article counts, orphans, distribution stats, stale analysis detection",
     []⟩
  ,    ⟨chars "graph_stats",
     chars "Get basic graph statistics - topic count, article count, relationship counts",
     []⟩
  ,    ⟨chars "all_topics",
     chars "List all topics with their IDs, names, types, and categories",
     []⟩
  ,    ⟨chars "topic_details",
     chars "Get full details for a specific topic including analysis context",
     [chars "topic_id"]⟩
  ,    ⟨chars "topic_articles",
     chars "Get articles linked to a topic with importance scores",
     [chars "topic_id"]⟩
  ,    ⟨chars "recent_articles",
     chars "Get recently ingested articles with their topic mappings",
     []⟩
  ,    ⟨chars "graph_query",
     chars "Run pre-built analytical queries by name. Available: topic_distribution, orphan_articles, topic_connections, analysis_freshness, high_importance_articles, articles_per_topic_stats, recent_ingestion, topic_overlap, relationship_summary",
     [chars "query_name"]⟩
  ,    ⟨chars "query_neo4j",
     chars "Execute a custom read-only Cypher query on Neo4j",
     [chars "query"]⟩
  ,    ⟨chars "list_users",
     chars "List all users in the system",
     []⟩
  ,    ⟨chars "user_strategies",
     chars "Get strategies for a specific user",
     [chars "username"]⟩
  ,    ⟨chars "trigger_analysis",
     chars "Trigger re-analysis for a specific topic (requires confirmation)",
     [chars "topic_id", chars "confirm"]⟩
  ,    ⟨chars "system_health",
     chars "Get system health - CPU, memory, disk usage",
     []⟩
  ,    ⟨chars "docker_status",
     chars "Get status of all Docker containers",
     []⟩
  ,    ⟨chars "read_file",
     chars "Read contents of a file from the server (within allowed paths)",
     [chars "path"]⟩
  ,    ⟨chars "search_files",
     chars "Search for files by name pattern in a directory",
     [chars "directory", chars "pattern"]⟩
  ,    ⟨chars "grep",
     chars "Search for text pattern in files",
     [chars "pattern", chars "path"]⟩
  ,    ⟨chars "list_directory",
     chars "List contents of a directory",
     [chars "path"]⟩
  ,    ⟨chars "read_log",
     chars "Read log file for a service (worker-main, worker-sources, apis, frontend, etc.)",
     [chars "service"]⟩
  ,    ⟨chars "search_logs",
     chars "Search for pattern in service logs",
     [chars "service", chars "pattern"]⟩
  ,    ⟨chars "tail_logs",
     chars "Get last N lines from service logs",
     [chars "service"]⟩
  ,    ⟨chars "restart_service",
     chars "Restart a Docker service (requires confirmation)",
     [chars "service", chars "confirm"]⟩
  ,    ⟨chars "git_status",
     chars "Get git status for a repository",
     [chars "repo"]⟩
  ,    ⟨chars "daily_stats",
     chars "Get daily statistics from the backend API",
     []⟩
  ,    ⟨chars "strategy_detail",
     chars "Get FULL strategy details including thesis text, position, target, is_default flag, timestamps - everything needed to understand a strategy",
     [chars "username", chars "strategy_id"]⟩
  ,    ⟨chars "list_strategy_files",
     chars "List all strategy JSON files for a user with metadata (filename, is_default, asset, created_at)",
     [chars "username"]⟩
  ,    ⟨chars "raw_strategy_file",
     chars "Read raw strategy JSON file - bypass API, see exactly what\x27s stored on disk",
     [chars "username", chars "strategy_id"]⟩
  ,    ⟨chars "strategy_conversations",
     chars "Get conversation history for a strategy",
     [chars "username", chars "strategy_id"]⟩
  ,    ⟨chars "topic_analysis_full",
     chars "Get ALL 4 analysis timeframes for a topic: fundamental (6+ months), medium (3-6 mo), current (this week), and drivers",
     [chars "topic_id"]⟩
  ,    ⟨chars "topic_relationships",
     chars "Get all relationships for a topic - INFLUENCES, CORRELATES_WITH, HEDGES, PEERS - with strength and mechanisms",
     [chars "topic_id"]⟩
  ,    ⟨chars "topic_influence_map",
     chars "Get full influence graph for a topic - what it affects, what affects it, N hops deep for chain reaction analysis",
     [chars "topic_id"]⟩
  ,    ⟨chars "topic_coverage_gaps",
     chars "Find topics with stale/missing analysis - identify where the system needs attention",
     []⟩
  ,    ⟨chars "topic_mapping_result",
     chars "See how a strategy was mapped to topics - which topics, why, confidence - understand Topic Mapper output",
     [chars "username", chars "strategy_id"]⟩
  ,    ⟨chars "exploration_paths",
     chars "Get chain reactions discovered by Exploration Agent for a strategy - the 3-6 hop connections",
     [chars "username", chars "strategy_id"]⟩
  ,    ⟨chars "agent_outputs",
     chars "Get raw outputs from specific agents (risk_assessor, opportunity_finder, exploration, strategy_writer) for a strategy",
     [chars "username", chars "strategy_id"]⟩
  ,    ⟨chars "worker_status",
     chars "Status of all workers (ingest, write, sources) with last run times, success rates",
     []⟩
  ,    ⟨chars "failed_jobs",
     chars "Recent failures in any pipeline (ingestion, analysis, strategy writing) - catch issues early",
     []⟩
  ,    ⟨chars "processing_backlog",
     chars "What\x27s waiting to be processed - articles to classify, topics to analyze, strategies to write",
     []⟩
  ,    ⟨chars "ingestion_stats",
     chars "Article ingestion stats - count by source, by day, success rate, recent trends",
     []⟩
  ,    ⟨chars "article_detail",
     chars "Get full article content + classification + topic assignments + importance scores",
     [chars "article_id"]⟩
  ,    ⟨chars "search_articles",
     chars "Search articles by keyword, date range, topic - find relevant content",
     [chars "query"]⟩
  ,    ⟨chars "source_stats",
     chars "Article counts by source, quality indicators, recent trends - understand content quality",
     []⟩
  ,    ⟨chars "strategy_health_check",
     chars "Diagnose why a strategy might be getting poor analysis - check topic mapping, analysis freshness, coverage gaps",
     [chars "username", chars "strategy_id"]⟩
  ,    ⟨chars "cross_strategy_insights",
     chars "Find overlapping topics/risks across ALL strategies - identify concentration risks, correlated exposures",
     []⟩
  ,    ⟨chars "system_activity_log",
     chars "Recent system activity - analyses run, strategies updated, articles ingested, errors",
     []⟩ ]

/-- `MCPRequest` (pydantic model): the parsed JSON-RPC request body. -/
structure MCPRequest where
  jsonrpc : Str := chars "2.0"
  id : Option Int := none
  method : Str
  params : Option ArgMap := none

/-- A JSON-RPC error object `\x7bcode, message\x7d`. -/
structure RpcError where
  code : Int
  message : Str

/-- The `result` member of a JSON-RPC response, by dispatch branch:
a literal object (`initialize`, `notifications/initialized`), the tool
catalog `\x7b"tools": MCP_TOOLS\x7d`, or a `tools/call` payload (which the
source wraps as `\x7b"content": [\x7b"type": "text", "text": json.dumps(result)\x7d]\x7d`;
the wrapped value is carried structurally here). -/
inductive RpcPayload where
  | obj (v : JVal)
  | toolsCatalog (tools : List ToolDef)
  | callContent (result : JVal)

/-- A JSON-RPC response: `jsonrpc` is always `"2.0"`; exactly one of
`result`/`error` is set by the handler. -/
structure RpcResponse where
  id : Option Int
  result : Option RpcPayload := none
  error : Option RpcError := none

/-- The fixed capability descriptor returned by `initialize`. -/
def INIT_RESULT : JVal :=
  .obj [ (chars "protocolVersion", .str (chars "2024-11-05"))
       , (chars "capabilities", .obj [(chars "tools", .obj [(chars "listChanged", .bool false)])])
       , (chars "serverInfo", .obj [ (chars "name", .str (chars "saga-graph-mcp"))
                                   , (chars "version", .str (chars "2.0.0")) ]) ]

/-- Credential extraction shared by both surfaces:
`headers.get("X-API-Key") or query_params.get("key")` — the query
parameter is consulted only when the header is absent or empty. -/
def http_api_key (headerKey queryKey : Option Str) : Option Str :=
  match headerKey with
  | some h => if h.isEmpty then queryKey else some h
  | none => queryKey

/-- Negation of the rejection test in the source,
`not api_key or api_key not in VALID_API_KEYS`. -/
def keyAuthorized (k : Option Str) : Bool :=
  match k with
  | some s => (¬ s.isEmpty) && VALID_API_KEYS.contains s
  | none => false

/-- `verify_api_key` (the REST-surface dependency): header first, query
parameter as fallback; raise 401 unless the credential is a member of
the fixed set. -/
def verify_api_key (headerKey queryKey : Option Str) : Except HTTPError Str :=
  let api_key := http_api_key headerKey queryKey
  match api_key with
  | some k =>
    if (¬ k.isEmpty) && VALID_API_KEYS.contains k then .ok k
    else .error ⟨401, chars "Invalid or missing API key. Use X-API-Key header or ?key= parameter"⟩
  | none => .error ⟨401, chars "Invalid or missing API key. Use X-API-Key header or ?key= parameter"⟩

/-- `execute_mcp_tool(tool_name, arguments)`: the dispatch
name-by-name chain, in source order.  Notes, each checked against the
definitions of the module:
* the `query_neo4j`, `list_directory`, `read_log`, `search_logs` branches
  construct `QueryRequest`, `ListDirRequest`, `LogRequest`,
  `SearchLogRequest` — classes that do not exist in `server.py` (the
  models are named `CypherRequest`, `ListDirectoryRequest`,
  `ReadLogRequest`, `SearchLogsRequest`), so those branches raise
  `NameError` before anything runs;
* `restart_service` checks `confirm` first and returns the benign
  result; its confirmed path references the undefined `RestartRequest`;
* `trigger_analysis` checks `confirm` first; its confirmed path builds a
  `TriggerAnalysisRequest` (which may raise a validation error) and then
  calls `trigger_analysis`, an undefined function (the handler is named
  `trigger_topic_analysis`), so it always raises — `World.brokenCall`
  gives the exception; likewise `git_status` calls the undefined `git`;
* `hide_article` has no branch at all, so it falls to the unknown-tool
  `ValueError` (whose message interpolates the tool name, with Python
  rendering a missing name as `None`);
* all remaining branches delegate to handler bodies that the spec places
  out of core scope (§1), modelled by the `World.otherTool` oracle. -/
def execute_mcp_tool (w : World) (tool_name : Option Str) (arguments : ArgMap) :
    Except PyErr JVal × List Cmd :=
  if tool_name = some (chars "graph_health") then w.otherTool (chars "graph_health") arguments
  else if tool_name = some (chars "graph_stats") then w.otherTool (chars "graph_stats") arguments
  else if tool_name = some (chars "all_topics") then w.otherTool (chars "all_topics") arguments
  else if tool_name = some (chars "topic_details") then w.otherTool (chars "topic_details") arguments
  else if tool_name = some (chars "topic_articles") then w.otherTool (chars "topic_articles") arguments
  else if tool_name = some (chars "recent_articles") then w.otherTool (chars "recent_articles") arguments
  else if tool_name = some (chars "graph_query") then w.otherTool (chars "graph_query") arguments
  else if tool_name = some (chars "query_neo4j") then
    (.error (.nameError (chars "QueryRequest")), [])
  else if tool_name = some (chars "list_users") then w.otherTool (chars "list_users") arguments
  else if tool_name = some (chars "user_strategies") then w.otherTool (chars "user_strategies") arguments
  else if tool_name = some (chars "trigger_analysis") then
    if ¬ pyTruthy (pyGet arguments (chars "confirm")) then
      (.ok (.obj [(chars "error", .str (chars "Must set confirm=true to trigger analysis"))]), [])
    else
      (.error (w.brokenCall (chars "trigger_analysis") arguments), [])
  else if tool_name = some (chars "system_health") then w.otherTool (chars "system_health") arguments
  else if tool_name = some (chars "docker_status") then w.otherTool (chars "docker_status") arguments
  else if tool_name = some (chars "read_file") then w.otherTool (chars "read_file") arguments
  else if tool_name = some (chars "search_files") then w.otherTool (chars "search_files") arguments
  else if tool_name = some (chars "grep") then w.otherTool (chars "grep") arguments
  else if tool_name = some (chars "list_directory") then
    (.error (.nameError (chars "ListDirRequest")), [])
  else if tool_name = some (chars "read_log") then
    (.error (.nameError (chars "LogRequest")), [])
  else if tool_name = some (chars "search_logs") then
    (.error (.nameError (chars "SearchLogRequest")), [])
  else if tool_name = some (chars "tail_logs") then w.otherTool (chars "tail_logs") arguments
  else if tool_name = some (chars "restart_service") then
    if ¬ pyTruthy (pyGet arguments (chars "confirm")) then
      (.ok (.obj [(chars "error", .str (chars "Must set confirm=true to restart service"))]), [])
    else
      (.error (.nameError (chars "RestartRequest")), [])
  else if tool_name = some (chars "git_status") then
    (.error (w.brokenCall (chars "git_status") arguments), [])
  else if tool_name = some (chars "daily_stats") then w.otherTool (chars "daily_stats") arguments
  else if tool_name = some (chars "strategy_detail") then w.otherTool (chars "strategy_detail") arguments
  else if tool_name = some (chars "list_strategy_files") then w.otherTool (chars "list_strategy_files") arguments
  else if tool_name = some (chars "raw_strategy_file") then w.otherTool (chars "raw_strategy_file") arguments
  else if tool_name = some (chars "strategy_conversations") then w.otherTool (chars "strategy_conversations") arguments
  else if tool_name = some (chars "topic_analysis_full") then w.otherTool (chars "topic_analysis_full") arguments
  else if tool_name = some (chars "topic_relationships") then w.otherTool (chars "topic_relationships") arguments
  else if tool_name = some (chars "topic_influence_map") then w.otherTool (chars "topic_influence_map") arguments
  else if tool_name = some (chars "topic_coverage_gaps") then w.otherTool (chars "topic_coverage_gaps") arguments
  else if tool_name = some (chars "topic_mapping_result") then w.otherTool (chars "topic_mapping_result") arguments
  else if tool_name = some (chars "exploration_paths") then w.otherTool (chars "exploration_paths") arguments
  else if tool_name = some (chars "agent_outputs") then w.otherTool (chars "agent_outputs") arguments
  else if tool_name = some (chars "worker_status") then w.otherTool (chars "worker_status") arguments
  else if tool_name = some (chars "failed_jobs") then w.otherTool (chars "failed_jobs") arguments
  else if tool_name = some (chars "processing_backlog") then w.otherTool (chars "processing_backlog") arguments
  else if tool_name = some (chars "ingestion_stats") then w.otherTool (chars "ingestion_stats") arguments
  else if tool_name = some (chars "article_detail") then w.otherTool (chars "article_detail") arguments
  else if tool_name = some (chars "search_articles") then w.otherTool (chars "search_articles") arguments
  else if tool_name = some (chars "source_stats") then w.otherTool (chars "source_stats") arguments
  else if tool_name = some (chars "strategy_health_check") then w.otherTool (chars "strategy_health_check") arguments
  else if tool_name = some (chars "cross_strategy_insights") then w.otherTool (chars "cross_strategy_insights") arguments
  else if tool_name = some (chars "system_activity_log") then w.otherTool (chars "system_activity_log") arguments
  else
    (.error (.valueError (chars "Unknown tool: " ++ showOptStr tool_name)), [])

/-- Extraction of `params.get("name")` in the `tools/call` branch. -/
def mcpToolName (req : MCPRequest) : Option Str :=
  match pyGet (req.params.getD []) (chars "name") with
  | some (.str s) => some s
  | _ => none

/-- Extraction of `params.get("arguments", \x7b\x7d)` in the `tools/call`
branch (a non-object value there would fault further down; only object
argument maps are modelled). -/
def mcpToolArgs (req : MCPRequest) : ArgMap :=
  match pyGet (req.params.getD []) (chars "arguments") with
  | some (.obj m) => m
  | _ => []

/-- `mcp_jsonrpc` (`POST /mcp`): credential check for every method except
`initialize`, then dispatch.  The source checks
`request.method != "initialize"` before the credential test and then
dispatches `initialize` first inside the `try`; the two checks collapse
here into dispatching `initialize` before the credential test.  The
`except Exception` boundary turns any exception from the dispatcher into
a `-32603` error whose message is `str(e)`. -/
def mcp_jsonrpc (w : World) (headerKey queryKey : Option Str) (req : MCPRequest) :
    RpcResponse × List Cmd :=
  let api_key := http_api_key headerKey queryKey
  if req.method = chars "initialize" then
    ({ id := req.id, result := some (.obj INIT_RESULT) }, [])
  else if ¬ keyAuthorized api_key then
    ({ id := req.id,
       error := some ⟨-32001, chars "Authentication required. Provide X-API-Key header."⟩ }, [])
  else if req.method = chars "notifications/initialized" then
    ({ id := req.id, result := some (.obj (.obj [])) }, [])
  else if req.method = chars "tools/list" then
    ({ id := req.id, result := some (.toolsCatalog MCP_TOOLS) }, [])
  else if req.method = chars "tools/call" then
    match execute_mcp_tool w (mcpToolName req) (mcpToolArgs req) with
    | (.ok v, t) => ({ id := req.id, result := some (.callContent v) }, t)
    | (.error e, t) => ({ id := req.id, error := some ⟨-32603, pyErrStr e⟩ }, t)
  else
    ({ id := req.id, error := some ⟨-32601, chars "Method not found: " ++ req.method⟩ }, [])

-- =============================================================================
-- Concrete instances used by witnesses and counterexamples
-- =============================================================================

/-- A concrete environment: every spawn completes silently with exit 0,
JSON never parses, out-of-scope tools return `null` without spawning. -/
def w0 : World :=
  { exec := fun _ => .completed [] [] 0
  , jsonParse := fun _ => none
  , jsonDumpsDict := fun _ => chars "\x7b\x7d"
  , otherTool := fun _ _ => (.ok .null, [])
  , brokenCall := fun _ _ => .valueError [] }

/-- A concrete environment in which every spawn times out. -/
def wTimeout : World :=
  { w0 with exec := fun _ => .timedOut }

/-- A concrete environment in which every spawn fails with a given error. -/
def wSpawnFail : World :=
  { w0 with exec := fun _ => .spawnError (chars "boom") }

/-- The first member of `VALID_API_KEYS`, used as a concrete credential. -/
def key1 : Str :=
  chars "785fc6c1647ff650b6b611509cc0a8f47009e6b743340503519d433f111fcf12"

/-- A concrete `tools/call` request for the undispatched `hide_article`. -/
def reqHideArticle : MCPRequest :=
  { id := some 7, method := chars "tools/call"
  , params := some [(chars "name", .str (chars "hide_article"))] }

/-- A canonicalization oracle containing one symlink:
`/tmp/link` resolves to `/tmp/password`; everything else is its own
canonical form. -/
def realpathLink : Str → Option Str :=
  fun p => if p = chars "/tmp/link" then some (chars "/tmp/password") else some p

-- =============================================================================
-- Helper lemmas
-- =============================================================================

/-- A nonempty keyword made of non-`p` characters occurs in `s.dropWhile p`
exactly when it occurs in `s`. -/
theorem keyword_dropWhile_iff (p : Char → Bool) (kw : Str) (hne : kw ≠ [])
    (hkw : ∀ c ∈ kw, p c = false) (s : Str) :
    kw <:+: s.dropWhile p ↔ kw <:+: s := by
  induction s with
  | nil => simp
  | cons a t ih =>
    by_cases hp : p a = true
    · rw [List.dropWhile_cons, if_pos hp, ih]
      constructor
      · intro hx
        exact List.infix_cons_iff.mpr (Or.inr hx)
      · intro hx
        rcases List.infix_cons_iff.mp hx with hpre | hinf
        · cases kw with
          | nil => exact absurd rfl hne
          | cons k ks =>
            have hk : k = a := (List.cons_prefix_cons.mp hpre).1
            have := hkw k (List.mem_cons_self k ks)
            rw [hk, hp] at this
            exact absurd this (by simp)
        · exact hinf
    · rw [List.dropWhile_cons, if_neg hp]

/-- A nonempty keyword of non-whitespace characters occurs in the stripped
string exactly when it occurs in the original. -/
theorem keyword_pyStrip_iff (kw : Str) (hne : kw ≠ [])
    (hkw : ∀ c ∈ kw, c.isWhitespace = false) (s : Str) :
    kw <:+: pyStrip s ↔ kw <:+: s := by
  have hner : kw.reverse ≠ [] := by simpa using hne
  have hkwr : ∀ c ∈ kw.reverse, c.isWhitespace = false := fun c hc =>
    hkw c (List.mem_reverse.mp hc)
  unfold pyStrip
  have h1 : kw <:+: ((s.dropWhile Char.isWhitespace).reverse.dropWhile Char.isWhitespace).reverse
      ↔ kw.reverse <:+: (s.dropWhile Char.isWhitespace).reverse.dropWhile Char.isWhitespace := by
    constructor
    · intro hx; simpa using hx.reverse
    · intro hx; simpa using hx.reverse
  rw [h1, keyword_dropWhile_iff Char.isWhitespace kw.reverse hner hkwr,
      List.reverse_infix, keyword_dropWhile_iff Char.isWhitespace kw hne hkw]

/-- Stripping the uppercased query does not change which mutating
keywords occur in it. -/
theorem write_keywords_strip (s : Str) :
    (write_keywords.any fun kw => decide (kw <:+: pyStrip s)) =
    (write_keywords.any fun kw => decide (kw <:+: s)) := by
  have h : ∀ kw ∈ write_keywords,
      (decide (kw <:+: pyStrip s) : Bool) = decide (kw <:+: s) := by
    intro kw hkw
    have hside : kw ≠ [] ∧ ∀ c ∈ kw, c.isWhitespace = false := by
      fin_cases hkw <;> exact ⟨by decide, by decide⟩
    exact decide_eq_decide.mpr (keyword_pyStrip_iff kw hside.1 hside.2 s)
  apply Bool.eq_iff_iff.mpr
  simp only [List.any_eq_true]
  constructor
  · rintro ⟨kw, hkw, hd⟩
    exact ⟨kw, hkw, by rwa [h kw hkw] at hd⟩
  · rintro ⟨kw, hkw, hd⟩
    exact ⟨kw, hkw, by rwa [h kw hkw]⟩

/-- C5: a query submitted to `query_neo4j` is rejected — with an
HTTP 400 client error and an empty spawn trace — exactly when its
uppercased text contains one of the six mutating keywords as a
substring; otherwise execution proceeds (one process is spawned). -/
theorem query_neo4j_mutation_gate (w : World) (req : CypherRequest) :
    ((∃ e, (query_neo4j w req).1 = Except.error e ∧ e.status = 400) ↔
       (write_keywords.any fun kw => decide (kw <:+: pyUpper req.query)) = true) ∧
    ((query_neo4j w req).2 = [] ↔
       (write_keywords.any fun kw => decide (kw <:+: pyUpper req.query)) = true) := by
  have hkw := write_keywords_strip (pyUpper req.query)
  by_cases hb : (write_keywords.any fun kw => decide (kw <:+: pyUpper req.query)) = true
  · constructor
    · simp [query_neo4j, hkw, hb]
    · simp [query_neo4j, hkw, hb]
  · have hb' : (write_keywords.any fun kw => decide (kw <:+: pyUpper req.query)) = false :=
      Bool.eq_false_iff.mpr hb
    constructor
    · simp [query_neo4j, hkw, hb']
    · simp [query_neo4j, hkw, hb']

/-- C2 (amended): `validate_path` accepts exactly when the canonical
resolution exists and starts with an allow-prefix AND the lowercased
original request path matches no blocklist pattern; in particular any
exception during canonicalization is an implicit reject. -/
theorem validate_path_characterization (realpath : Str → Option Str) (path : Str) :
    acceptsPath realpath path = (is_path_allowed realpath path && ¬ is_path_blocked path) ∧
    (is_path_allowed realpath path = true ↔
      ∃ rp, realpath path = some rp ∧ ∃ allowed ∈ ALLOWED_PATHS, allowed <+: rp) ∧
    (realpath path = none → acceptsPath realpath path = false) := by
  refine ⟨?_, ?_, ?_⟩
  · unfold acceptsPath validate_path
    by_cases hA : is_path_allowed realpath path = true
    · by_cases hB : is_path_blocked path = true
      · simp [hA, hB]
      · rcases hrp : realpath path with _ | rp
        · unfold is_path_allowed at hA
          rw [hrp] at hA
          exact absurd hA (by simp)
        · simp [hA, hB, hrp]
    · simp [Bool.eq_false_iff.mpr hA]
  · unfold is_path_allowed
    rcases h : realpath path with _ | rp
    · simp
    · simp [List.any_eq_true]
  · intro h
    unfold acceptsPath validate_path is_path_allowed
    simp [h]

/-- C2 (counterexample): the benign-named symlink `/tmp/link` resolves to
`/tmp/password`, whose canonical form matches the `password` blocklist
pattern; the spec-modelled validator rejects it, but `validate_path`
accepts it, because the code applies the blocklist to the original path
string rather than to the canonical form. -/
theorem validate_path_symlink_cex :
    acceptsPath realpathLink (chars "/tmp/link") = true ∧
    pathAllowed_spec realpathLink (chars "/tmp/link") = false := by
  exact ⟨by decide, by decide⟩

/-- C2 (witness): the characterization theorem applied to a concrete
path, and its fail-closed clause applied to a canonicalizer that always
raises. -/
theorem validate_path_characterization_witness :
    acceptsPath realpathLink (chars "/tmp/data") =
      (is_path_allowed realpathLink (chars "/tmp/data") && ¬ is_path_blocked (chars "/tmp/data")) ∧
    acceptsPath (fun _ => none) (chars "/tmp/data") = false :=
  ⟨(validate_path_characterization realpathLink (chars "/tmp/data")).1,
   (validate_path_characterization (fun _ => none) (chars "/tmp/data")).2.2 rfl⟩

/-- C1 (amended): on the JSON-RPC `tools/call` surface, a `restart_service`
or `trigger_analysis` invocation whose argument map has no truthy
`confirm` returns the benign confirmation-required result without
spawning anything, and `hide_article` is not dispatched there at all
(unknown-tool error, no spawn). -/
theorem destructive_confirm_gate_mcp (w : World) (args : ArgMap)
    (h : pyTruthy (pyGet args (chars "confirm")) = false) :
    execute_mcp_tool w (some (chars "restart_service")) args =
      (.ok (.obj [(chars "error", .str (chars "Must set confirm=true to restart service"))]), []) ∧
    execute_mcp_tool w (some (chars "trigger_analysis")) args =
      (.ok (.obj [(chars "error", .str (chars "Must set confirm=true to trigger analysis"))]), []) ∧
    execute_mcp_tool w (some (chars "hide_article")) args =
      (.error (.valueError (chars "Unknown tool: hide_article")), []) := by
  refine ⟨?_, ?_, rfl⟩ <;> (unfold execute_mcp_tool; rw [h]; rfl)

/-- C1 (witness): the gate theorem applied to the empty argument map in a
concrete environment. -/
theorem destructive_confirm_gate_mcp_witness :
    pyTruthy (pyGet [] (chars "confirm")) = false ∧
    (execute_mcp_tool w0 (some (chars "restart_service")) [] =
      (.ok (.obj [(chars "error", .str (chars "Must set confirm=true to restart service"))]), []) ∧
     execute_mcp_tool w0 (some (chars "trigger_analysis")) [] =
      (.ok (.obj [(chars "error", .str (chars "Must set confirm=true to trigger analysis"))]), []) ∧
     execute_mcp_tool w0 (some (chars "hide_article")) [] =
      (.error (.valueError (chars "Unknown tool: hide_article")), [])) :=
  ⟨rfl, destructive_confirm_gate_mcp w0 [] rfl⟩

/-- C1 (counterexample): the legacy REST endpoints perform the destructive
operation without any confirmation flag — their request models have no
`confirm` field — so `restart_service` and `hide_article` each spawn a
process on a request that certainly does not contain `confirm=true`. -/
theorem rest_no_confirm_spawns_cex :
    (restart_service w0 { service := chars "apis" }).2 ≠ [] ∧
    (hide_article w0 { article_id := chars "a1", reason := chars "cleanup" }).2 ≠ [] := by
  exact ⟨by decide, by decide⟩

/-- C3 (amended): any exception raised while handling a `tools/call`
request is converted into a structured `-32603` error carrying the
caller-supplied id unchanged — but the message is `str(e)`, the raised
own text of the raised exception, not a generic internal-error message. -/
theorem jsonrpc_internal_error_shape (w : World) (headerKey queryKey : Option Str)
    (req : MCPRequest) (e : PyErr) (t : List Cmd)
    (hm : req.method = chars "tools/call")
    (ha : keyAuthorized (http_api_key headerKey queryKey) = true)
    (hx : execute_mcp_tool w (mcpToolName req) (mcpToolArgs req) = (.error e, t)) :
    mcp_jsonrpc w headerKey queryKey req =
      ({ id := req.id, result := none, error := some ⟨-32603, pyErrStr e⟩ }, t) := by
  simp only [mcp_jsonrpc, hm, ha]
  rw [hx]
  rfl

/-- C3 (witness): the conversion theorem applied to a concrete
unknown-tool request with a valid credential. -/
theorem jsonrpc_internal_error_shape_witness :
    (reqHideArticle.method = chars "tools/call" ∧
     keyAuthorized (http_api_key (some key1) none) = true ∧
     execute_mcp_tool w0 (mcpToolName reqHideArticle) (mcpToolArgs reqHideArticle) =
       (.error (.valueError (chars "Unknown tool: hide_article")), [])) ∧
    mcp_jsonrpc w0 (some key1) none reqHideArticle =
      ({ id := reqHideArticle.id, result := none,
         error := some ⟨-32603, pyErrStr (.valueError (chars "Unknown tool: hide_article"))⟩ }, []) :=
  ⟨⟨rfl, by decide, rfl⟩,
   jsonrpc_internal_error_shape w0 (some key1) none reqHideArticle _ _ rfl (by decide) rfl⟩

/-- C3 (counterexample): for the unknown tool `hide_article` the `-32603`
message of the response is exactly the text of the raised `ValueError`,
`"Unknown tool: hide_article"` — the caller-supplied tool name (the raw
exception detail) is surfaced, not a generic internal-error message. -/
theorem jsonrpc_error_leak_cex :
    mcp_jsonrpc w0 (some key1) none reqHideArticle =
      ({ id := some 7, result := none,
         error := some ⟨-32603, chars "Unknown tool: hide_article"⟩ }, []) ∧
    decide ((chars "hide_article") <:+: (chars "Unknown tool: hide_article")) = true := by
  exact ⟨rfl, by decide⟩

/-- C4: every JSON-RPC method other than `initialize` answers `-32001`
with an empty spawn trace when the supplied credential is missing or not
a member of the fixed set, while `initialize` succeeds with the fixed
capability descriptor even with no credential at all. -/
theorem jsonrpc_auth_gate :
    (∀ (w : World) (headerKey queryKey : Option Str) (req : MCPRequest),
        req.method ≠ chars "initialize" →
        keyAuthorized (http_api_key headerKey queryKey) = false →
        mcp_jsonrpc w headerKey queryKey req =
          ({ id := req.id, result := none,
             error := some ⟨-32001, chars "Authentication required. Provide X-API-Key header."⟩ }, [])) ∧
    (∀ (w : World) (i : Option Int) (p : Option ArgMap),
        mcp_jsonrpc w none none { id := i, method := chars "initialize", params := p } =
          ({ id := i, result := some (.obj INIT_RESULT), error := none }, [])) := by
  constructor
  · intro w hk qk req hm ha
    simp [mcp_jsonrpc, hm, ha]
  · intro w i p
    simp [mcp_jsonrpc]

/-- C4 (witness): an uncredentialed `tools/list` is refused with `-32001`
while an uncredentialed `initialize` succeeds. -/
theorem jsonrpc_auth_gate_witness :
    ((chars "tools/list" ≠ chars "initialize") ∧
     keyAuthorized (http_api_key none none) = false ∧
     mcp_jsonrpc w0 none none { id := some 1, method := chars "tools/list", params := none } =
       ({ id := some 1, result := none,
          error := some ⟨-32001, chars "Authentication required. Provide X-API-Key header."⟩ }, [])) ∧
    mcp_jsonrpc w0 none none { id := some 2, method := chars "initialize", params := none } =
      ({ id := some 2, result := some (.obj INIT_RESULT), error := none }, []) :=
  ⟨⟨by decide, rfl, jsonrpc_auth_gate.1 w0 none none _ (by decide) rfl⟩,
   jsonrpc_auth_gate.2 w0 (some 2) none⟩

/-- C8: with any accepted credential, in any environment, `tools/list`
returns exactly the static catalog with an empty spawn trace — the
response is a pure function of `MCP_TOOLS` and of nothing else, so
repeated calls (or interleaved tool invocations, which can only change
the environment `w`) always yield an identical catalog. -/
theorem tools_list_constant_catalog (w : World) (headerKey queryKey : Option Str)
    (i : Option Int) (p : Option ArgMap)
    (ha : keyAuthorized (http_api_key headerKey queryKey) = true) :
    mcp_jsonrpc w headerKey queryKey { id := i, method := chars "tools/list", params := p } =
      ({ id := i, result := some (.toolsCatalog MCP_TOOLS), error := none }, []) := by
  simp only [mcp_jsonrpc, ha]
  rfl

/-- C8 (witness): the catalog theorem applied with the first configured
credential in a concrete environment. -/
theorem tools_list_constant_catalog_witness :
    keyAuthorized (http_api_key (some key1) none) = true ∧
    mcp_jsonrpc w0 (some key1) none { id := some 3, method := chars "tools/list", params := none } =
      ({ id := some 3, result := some (.toolsCatalog MCP_TOOLS), error := none }, []) :=
  ⟨by decide, tools_list_constant_catalog w0 (some key1) none (some 3) none (by decide)⟩

/-- C9: a present, non-empty `X-API-Key` header takes absolute precedence
over the `key` query parameter in both credential extractors, so a
request with an invalid non-empty header credential is rejected (REST
401 / JSON-RPC -32001) even when its query parameter holds a valid
credential. -/
theorem header_credential_precedence (h : Str) (q : Option Str)
    (hne : h ≠ []) (hbad : h ∉ VALID_API_KEYS) :
    http_api_key (some h) q = some h ∧
    verify_api_key (some h) q =
      .error ⟨401, chars "Invalid or missing API key. Use X-API-Key header or ?key= parameter"⟩ ∧
    (∀ (w : World) (req : MCPRequest), req.method ≠ chars "initialize" →
        mcp_jsonrpc w (some h) q req =
          ({ id := req.id, result := none,
             error := some ⟨-32001, chars "Authentication required. Provide X-API-Key header."⟩ }, [])) := by
  have hie : h.isEmpty = false := by simp [List.isEmpty_iff, hne]
  have hex : http_api_key (some h) q = some h := by simp [http_api_key, hie]
  have hauth : keyAuthorized (http_api_key (some h) q) = false := by
    simp [hex, keyAuthorized, hie, hbad]
  refine ⟨hex, ?_, ?_⟩
  · simp [verify_api_key, http_api_key, hie, hbad]
  · intro w req hm
    simp [mcp_jsonrpc, hm, hauth]

/-- C9 (witness): the precedence theorem applied to the invalid header
credential `"wrong-key"` alongside a valid query credential. -/
theorem header_credential_precedence_witness :
    ((chars "wrong-key") ≠ [] ∧ (chars "wrong-key") ∉ VALID_API_KEYS) ∧
    (http_api_key (some (chars "wrong-key")) (some key1) = some (chars "wrong-key") ∧
     verify_api_key (some (chars "wrong-key")) (some key1) =
       .error ⟨401, chars "Invalid or missing API key. Use X-API-Key header or ?key= parameter"⟩ ∧
     ((chars "tools/list" : Str) ≠ chars "initialize" →
       mcp_jsonrpc w0 (some (chars "wrong-key")) (some key1)
           { id := some 4, method := chars "tools/list", params := none } =
         ({ id := some 4, result := none,
            error := some ⟨-32001, chars "Authentication required. Provide X-API-Key header."⟩ }, []))) :=
  ⟨⟨by decide, by decide⟩,
   (header_credential_precedence (chars "wrong-key") (some key1) (by decide) (by decide)).1,
   (header_credential_precedence (chars "wrong-key") (some key1) (by decide) (by decide)).2.1,
   fun hm => (header_credential_precedence (chars "wrong-key") (some key1) (by decide) (by decide)).2.2
     w0 { id := some 4, method := chars "tools/list", params := none } hm⟩

/-- C6: `run_command` never lets a timeout or spawn failure escape as an
exception: a timed-out command is normalized to
`success=false, returncode=-1, stderr="Command timed out"`, and a spawn
error to `success=false, returncode=-1` with the error text in stderr.
(Totality of the function is the model of "no exception propagates".) -/
theorem run_command_failure_normalization (w : World) (cmd : Cmd) (timeout : Nat) :
    (w.exec cmd = .timedOut →
       run_command w cmd timeout =
         ({ stdout := [], stderr := chars "Command timed out", returncode := -1, success := false }, [cmd])) ∧
    (∀ msg, w.exec cmd = .spawnError msg →
       run_command w cmd timeout =
         ({ stdout := [], stderr := msg, returncode := -1, success := false }, [cmd])) := by
  constructor
  · intro hx; simp [run_command, hx]
  · intro msg hx; simp [run_command, hx]

/-- C6 (witness): the normalization theorem applied in an environment
where the spawn times out, and in one where it fails to start. -/
theorem run_command_failure_normalization_witness :
    (wTimeout.exec (Cmd.sh (chars "sleep 999")) = .timedOut ∧
     run_command wTimeout (Cmd.sh (chars "sleep 999")) 1 =
       ({ stdout := [], stderr := chars "Command timed out", returncode := -1, success := false },
        [Cmd.sh (chars "sleep 999")])) ∧
    (wSpawnFail.exec (Cmd.sh (chars "nosuch")) = .spawnError (chars "boom") ∧
     run_command wSpawnFail (Cmd.sh (chars "nosuch")) 1 =
       ({ stdout := [], stderr := chars "boom", returncode := -1, success := false },
        [Cmd.sh (chars "nosuch")])) :=
  ⟨⟨rfl, (run_command_failure_normalization wTimeout (Cmd.sh (chars "sleep 999")) 1).1 rfl⟩,
   ⟨rfl, (run_command_failure_normalization wSpawnFail (Cmd.sh (chars "nosuch")) 1).2 (chars "boom") rfl⟩⟩

/-- The pull phase produces only `git_pull` steps, one spawned command
per reported step, and nothing at all unless the request asked to pull. -/
theorem deploy_pull_part_spec (w : World) (req : DeployServiceRequest) :
    (∀ s ∈ (deploy_pull_part w req).1, s.step = chars "git_pull") ∧
    (deploy_pull_part w req).1.length = (deploy_pull_part w req).2.length ∧
    ((deploy_pull_part w req).1 ≠ [] → req.pull = true) := by
  unfold deploy_pull_part
  by_cases hp : req.pull
  · cases h1 : List.lookup req.service service_to_repo with
    | none => simp [hp, h1]
    | some repo =>
      cases h2 : List.lookup repo REPO_PATHS with
      | none => simp [hp, h1, h2]
      | some repo_path => simp [hp, h1, h2]
  · simp [hp]

/-- C7: for an allowed service, `deploy_service` reports its steps as an
optional `git_pull` block, then the `docker_build` step, then an optional
`docker_up` block, with one spawned command per reported step in the
same order; the `docker_up` step exists exactly when the `docker_build`
step reported success, and a `git_pull` step exists only when the pull
was requested. -/
theorem deploy_service_step_ordering (w : World) (req : DeployServiceRequest)
    (h : ALLOWED_SERVICES.contains req.service = true) :
    ∃ (r : DeployResult) (gitSteps : List DeployStep) (gitCmds : List Cmd)
      (buildStep : DeployStep) (upSteps : List DeployStep) (upCmds : List Cmd),
      deploy_service w req = (.ok r, gitCmds ++ [deploy_build_cmd req] ++ upCmds) ∧
      r.steps = gitSteps ++ [buildStep] ++ upSteps ∧
      (∀ s ∈ gitSteps, s.step = chars "git_pull") ∧
      buildStep.step = chars "docker_build" ∧
      (∀ s ∈ upSteps, s.step = chars "docker_up") ∧
      gitSteps.length = gitCmds.length ∧
      upSteps.length = upCmds.length ∧
      (upSteps ≠ [] ↔ buildStep.success = true) ∧
      (gitSteps ≠ [] → req.pull = true) := by
  obtain ⟨hg1, hg2, hg3⟩ := deploy_pull_part_spec w req
  by_cases hs : ((run_command w (deploy_build_cmd req) 600).1).success = true
  · simp only [deploy_service, h, hs, not_true, if_false, if_true, Bool.not_eq_true]
    refine ⟨_, _, _, _, _, _, rfl, rfl, hg1, rfl, ?_, hg2, rfl, ?_, hg3⟩
    · simp
    · simp [hs]
  · have hs2 : ((run_command w (deploy_build_cmd req) 600).1).success = false :=
      Bool.eq_false_iff.mpr hs
    simp only [deploy_service, h, hs2, not_true, if_false, if_true, Bool.false_eq_true,
      Bool.not_eq_true]
    refine ⟨_, _, _, _, _, _, rfl, rfl, hg1, rfl, ?_, hg2, rfl, ?_, hg3⟩
    · simp
    · simp [hs2]

/-- C7 (witness): the ordering theorem applied to a deployment of the
allowed service `apis` in a concrete environment. -/
theorem deploy_service_step_ordering_witness :
    ALLOWED_SERVICES.contains (chars "apis") = true ∧
    (∃ (r : DeployResult) (gitSteps : List DeployStep) (gitCmds : List Cmd)
      (buildStep : DeployStep) (upSteps : List DeployStep) (upCmds : List Cmd),
      deploy_service w0 { service := chars "apis" } =
        (.ok r, gitCmds ++ [deploy_build_cmd { service := chars "apis" }] ++ upCmds) ∧
      r.steps = gitSteps ++ [buildStep] ++ upSteps ∧
      (∀ s ∈ gitSteps, s.step = chars "git_pull") ∧
      buildStep.step = chars "docker_build" ∧
      (∀ s ∈ upSteps, s.step = chars "docker_up") ∧
      gitSteps.length = gitCmds.length ∧
      upSteps.length = upCmds.length ∧
      (upSteps ≠ [] ↔ buildStep.success = true) ∧
      (gitSteps ≠ [] → ({ service := chars "apis" } : DeployServiceRequest).pull = true)) :=
  ⟨by decide, deploy_service_step_ordering w0 { service := chars "apis" } (by decide)⟩

/-- Folding the `search_logs` loop never records a key equal to a name
outside the allowed-services set. -/
theorem search_logs_fold_keys (w : World) (req : SearchLogsRequest) (s : Str)
    (hs : ALLOWED_SERVICES.contains s = false) :
    ∀ (l : List Str) (acc : List (Str × List Str) × List Cmd),
      (∀ p ∈ acc.1, ¬ s = p.1) →
      ∀ p ∈ (l.foldl (search_logs_step w req) acc).1, ¬ s = p.1 := by
  intro l
  induction l with
  | nil => intro acc hacc; simpa using hacc
  | cons x t ih =>
    intro acc hacc
    rw [List.foldl_cons]
    apply ih
    intro p hp
    unfold search_logs_step at hp
    by_cases hx : ALLOWED_SERVICES.contains x = true
    · rw [if_neg (fun hc => hc hx)] at hp
      dsimp only [] at hp
      by_cases ho : (pyStrip ((run_command w (search_logs_cmd req.since req.pattern req.lines x) 30).1).stdout).isEmpty = true
      · rw [if_neg (fun hc => hc ho)] at hp
        exact hacc p hp
      · rw [if_pos ho] at hp
        rcases List.mem_append.mp hp with h1 | h2
        · exact hacc p h1
        · have hpx : p.1 = x := by
            rcases List.mem_singleton.mp h2 with h
            rw [h]
          intro hsp
          rw [hsp, hpx, hx] at hs
          exact absurd hs (by simp)
    · rw [if_pos hx] at hp
      exact hacc p hp

/-- C10: `search_logs` never rejects a request: it always returns a
normal result, and a requested service outside the allowed set simply
does not appear in the `matches` map (for a non-empty unknown name the
loop skips it entirely, so nothing is spawned either); `read_log` with
the same unknown service raises a 400 client error without spawning. -/
theorem search_logs_vs_read_log (w : World) (pat s : Str)
    (since : Option Str) (lines lines2 : Int)
    (hs : ALLOWED_SERVICES.contains s = false) :
    (∀ (w2 : World) (req2 : SearchLogsRequest), ∃ r, (search_logs w2 req2).1 = Except.ok r) ∧
    (∃ r, (search_logs w { pattern := pat, service := some s, since := since, lines := lines }).1
        = Except.ok r ∧ List.lookup s r.«matches» = none) ∧
    (s ≠ [] →
      search_logs w { pattern := pat, service := some s, since := since, lines := lines } =
        (.ok { pattern := pat, since := since, «matches» := [], total_matches := 0 }, [])) ∧
    (∃ e, (read_log w { service := s, lines := lines2, since := since }).1 = Except.error e ∧
      e.status = 400) ∧
    (read_log w { service := s, lines := lines2, since := since }).2 = [] := by
  have hsm : s ∉ ALLOWED_SERVICES := by simpa using hs
  refine ⟨fun w2 req2 => ⟨_, rfl⟩, ⟨_, rfl, ?_⟩, ?_, ?_, ?_⟩
  · rw [List.lookup_eq_none_iff]
    intro p hp
    have h := search_logs_fold_keys w _ s hs _ ([], []) (by simp) p hp
    simpa using h
  · intro hne
    have hie : s.isEmpty = false := by simp [List.isEmpty_iff, hne]
    simp [search_logs, hie, search_logs_step, hsm]
  · refine ⟨⟨400, chars "Unknown service: " ++ s⟩, ?_, rfl⟩
    simp [read_log, hsm]
  · simp [read_log, hsm]

/-- C10 (witness): the contrast theorem applied to the unknown service
name `ghost` in a concrete environment. -/
theorem search_logs_vs_read_log_witness :
    ALLOWED_SERVICES.contains (chars "ghost") = false ∧
    (∃ r, (search_logs w0 { pattern := chars "ERROR", service := some (chars "ghost") }).1
        = Except.ok r ∧ List.lookup (chars "ghost") r.«matches» = none) ∧
    (∃ e, (read_log w0 { service := chars "ghost" }).1 = Except.error e ∧ e.status = 400) :=
  ⟨by decide,
   (search_logs_vs_read_log w0 (chars "ERROR") (chars "ghost") (some (chars "1h")) 500 100
      (by decide)).2.1,
   (search_logs_vs_read_log w0 (chars "ERROR") (chars "ghost") (some (chars "1h")) 500 100
      (by decide)).2.2.2.1⟩
